import Mathlib

/-!
Verification development for the rdata codec core of a DNS library
(`dns/rdata.py`).  The Python source is shallowly embedded: byte strings
become `List Nat`, the process-wide registry dictionary becomes an explicit
association list threaded through the functions that read and update it,
exceptions become `Except` values, and the external collaborators (the
tokenizer, the per-type implementation modules loaded by `import_module`,
and the numeric-to-text registries) become explicit parameters collected
in an `Env` structure.
-/

/-! ## Python byte-string comparison

Python compares `bytes` lexicographically; `Rdata._cmp` relies on the
`==` and `>` operators of `bytes`.  `pyBytesLt x y` is `x < y` on bytes. -/

def pyBytesLt : List Nat → List Nat → Bool
  | _, [] => false
  | [], _ :: _ => true
  | a :: as, b :: bs => if a < b then true else if b < a then false else pyBytesLt as bs

theorem pyBytesLt_irrefl (x : List Nat) : pyBytesLt x x = false := by
  induction x with
  | nil => rfl
  | cons a as ih => simp [pyBytesLt, ih]

theorem pyBytesLt_asymm : ∀ x y : List Nat, pyBytesLt x y = true → pyBytesLt y x = false := by
  intro x
  induction x with
  | nil =>
    intro y h
    cases y with
    | nil => simp [pyBytesLt] at h
    | cons b bs => rfl
  | cons a as ih =>
    intro y h
    cases y with
    | nil => simp [pyBytesLt] at h
    | cons b bs =>
      simp only [pyBytesLt] at h ⊢
      rcases Nat.lt_trichotomy a b with hab | hab | hab
      · simp [hab, Nat.lt_asymm hab, Nat.ne_of_lt hab]
      · subst hab
        simp only [lt_irrefl, if_false] at h ⊢
        exact ih bs h
      · simp [hab, Nat.lt_asymm hab] at h

theorem pyBytesLt_total : ∀ x y : List Nat, x ≠ y →
    pyBytesLt x y = true ∨ pyBytesLt y x = true := by
  intro x
  induction x with
  | nil =>
    intro y h
    cases y with
    | nil => exact absurd rfl h
    | cons b bs => left; rfl
  | cons a as ih =>
    intro y h
    cases y with
    | nil => right; rfl
    | cons b bs =>
      simp only [pyBytesLt]
      rcases Nat.lt_trichotomy a b with hab | hab | hab
      · left; simp [hab]
      · subst hab
        have hne : as ≠ bs := by intro he; exact h (by rw [he])
        rcases ih bs hne with h1 | h1
        · left; simp [h1]
        · right; simp [h1]
      · right; simp [hab, Nat.lt_asymm hab]

theorem pyBytesLt_trans : ∀ x y z : List Nat,
    pyBytesLt x y = true → pyBytesLt y z = true → pyBytesLt x z = true := by
  intro x
  induction x with
  | nil =>
    intro y z hxy hyz
    cases z with
    | nil =>
      cases y with
      | nil => exact hxy
      | cons b bs => simp [pyBytesLt] at hyz
    | cons c cs => rfl
  | cons a as ih =>
    intro y z hxy hyz
    cases y with
    | nil => simp [pyBytesLt] at hxy
    | cons b bs =>
      cases z with
      | nil => simp [pyBytesLt] at hyz
      | cons c cs =>
        simp only [pyBytesLt] at hxy hyz ⊢
        rcases Nat.lt_trichotomy a b with hab | hab | hab
        · rcases Nat.lt_trichotomy b c with hbc | hbc | hbc
          · simp [Nat.lt_trans hab hbc]
          · subst hbc; simp [hab]
          · simp [hbc, Nat.lt_asymm hbc] at hyz
        · subst hab
          rcases Nat.lt_trichotomy a c with hac | hac | hac
          · simp [hac]
          · subst hac
            simp only [lt_irrefl, if_false] at hxy hyz ⊢
            exact ih bs cs hxy hyz
          · simp [hac, Nat.lt_asymm hac] at hyz
        · simp [hab, Nat.lt_asymm hab] at hxy

theorem pyBytesLt_ne {x y : List Nat} (h : pyBytesLt x y = true) : x ≠ y := by
  intro he
  subst he
  rw [pyBytesLt_irrefl] at h
  exact Bool.false_ne_true h

/-! ## Errors

The exception classes that the embedded code can raise.  `synError` is
`dns.exception.SyntaxError`, `binasciiError` is the error raised by
`binascii.unhexlify` on malformed hex, `typeError` / `attrError` are the
builtin `TypeError` / `AttributeError`, and `rdatatypeExists` is the
module's own `RdatatypeExists` exception. -/

inductive DnsError where
  | synError (msg : String)
  | binasciiError
  | typeError (msg : String)
  | attrError (msg : String)
  | rdatatypeExists (rdclass rdtype : Nat)
deriving DecidableEq

/-! ## The Rdata base-class model

`Rdata` has abstract `to_wire`; each variant supplies its own
serialization.  For the base-class contract (comparison, equality, hash,
immutability) we therefore model a constructed value by its identity
fields `rdclass`, `rdtype` together with the byte sequence its
variant-specific `to_wire` produces into a fresh buffer with compression
disabled relative to the DNS root — exactly the bytes
`to_digestable(dns.name.root)` returns, which is all the base-class
methods under study consult. -/

structure Rdata where
  rdclass : Nat
  rdtype : Nat
  wire : List Nat
deriving DecidableEq

def Rdata.to_digestable (r : Rdata) : List Nat := r.wire

/-- A Python object, as seen by the comparison dunder methods: either an
`Rdata` instance or some non-`Rdata` object (abstracted by a tag). -/
inductive PyObj where
  | rdataObj (r : Rdata)
  | nonRdata (tag : Nat)
deriving DecidableEq

/-- `Rdata._cmp`: compare the `to_digestable(dns.name.root)` byte strings;
`0` when equal, `1` when `our > their`, `-1` otherwise. -/
def Rdata.cmp (a b : Rdata) : Int :=
  if a.to_digestable = b.to_digestable then 0
  else if pyBytesLt b.to_digestable a.to_digestable then 1
  else -1

def Rdata.eqPy (a : Rdata) : PyObj → Bool
  | .nonRdata _ => false
  | .rdataObj b =>
    if a.rdclass ≠ b.rdclass ∨ a.rdtype ≠ b.rdtype then false
    else decide (a.cmp b = 0)

def Rdata.nePy (a : Rdata) : PyObj → Bool
  | .nonRdata _ => true
  | .rdataObj b =>
    if a.rdclass ≠ b.rdclass ∨ a.rdtype ≠ b.rdtype then true
    else decide (a.cmp b ≠ 0)

/-- `Rdata.__lt__`; `none` is Python's `NotImplemented`. -/
def Rdata.ltPy (a : Rdata) : PyObj → Option Bool
  | .nonRdata _ => none
  | .rdataObj b =>
    if a.rdclass ≠ b.rdclass ∨ a.rdtype ≠ b.rdtype then none
    else some (decide (a.cmp b < 0))

def Rdata.lePy (a : Rdata) : PyObj → Option Bool
  | .nonRdata _ => none
  | .rdataObj b =>
    if a.rdclass ≠ b.rdclass ∨ a.rdtype ≠ b.rdtype then none
    else some (decide (a.cmp b ≤ 0))

def Rdata.gePy (a : Rdata) : PyObj → Option Bool
  | .nonRdata _ => none
  | .rdataObj b =>
    if a.rdclass ≠ b.rdclass ∨ a.rdtype ≠ b.rdtype then none
    else some (decide (a.cmp b ≥ 0))

def Rdata.gtPy (a : Rdata) : PyObj → Option Bool
  | .nonRdata _ => none
  | .rdataObj b =>
    if a.rdclass ≠ b.rdclass ∨ a.rdtype ≠ b.rdtype then none
    else some (decide (a.cmp b > 0))

/-- `Rdata.__hash__`: the hash of `to_digestable(dns.name.root)`.  The
Python `hash` builtin on bytes is abstracted as an arbitrary function
`H` on byte strings. -/
def Rdata.hashVal (H : List Nat → Int) (r : Rdata) : Int :=
  H r.to_digestable

/-- `Rdata.__setattr__`: unconditionally raises `TypeError`. -/
def Rdata.setattrPy {α : Type} (_r : Rdata) (_name : String) (_value : α) :
    Except DnsError Unit :=
  .error (.typeError "object does not support attribute assignment")

/-- `Rdata.__delattr__`: unconditionally raises `TypeError`. -/
def Rdata.delattrPy (_r : Rdata) (_name : String) : Except DnsError Unit :=
  .error (.typeError "object does not support attribute deletion")

theorem Rdata.cmp_eq_zero_iff (a b : Rdata) :
    a.cmp b = 0 ↔ a.to_digestable = b.to_digestable := by
  unfold Rdata.cmp
  split
  · simp [*]
  · split <;> simp [*]

theorem Rdata.cmp_neg_iff (a b : Rdata) :
    a.cmp b < 0 ↔ pyBytesLt a.to_digestable b.to_digestable = true := by
  unfold Rdata.cmp
  split
  · rename_i he
    rw [he]
    simp [pyBytesLt_irrefl]
  · rename_i hne
    split
    · rename_i hgt
      constructor
      · intro h; omega
      · intro h
        rw [pyBytesLt_asymm _ _ h] at hgt
        exact absurd hgt (Bool.false_ne_true)
    · rename_i hngt
      constructor
      · intro _
        rcases pyBytesLt_total a.to_digestable b.to_digestable hne with h1 | h1
        · exact h1
        · exact absurd h1 hngt
      · intro _; omega

theorem Rdata.cmp_pos_iff (a b : Rdata) :
    a.cmp b > 0 ↔ pyBytesLt b.to_digestable a.to_digestable = true := by
  unfold Rdata.cmp
  split
  · rename_i he
    rw [he]
    simp [pyBytesLt_irrefl]
  · split
    · simp [*]
    · rename_i hngt
      constructor
      · intro h; omega
      · intro h; exact absurd h hngt

/-! ## The tokenizer model

The tokenizer (`dns.tokenizer`) is an out-of-scope external collaborator.
A token stream is a list of tokens; `get` on an exhausted stream yields an
end-of-file token, as the real tokenizer does. -/

inductive TokenKind where
  | identifier
  | quotedString
  | eol
  | eofKind
  | otherKind
deriving DecidableEq

structure Token where
  ttype : TokenKind
  value : String
deriving DecidableEq

def Token.is_identifier (t : Token) : Bool := t.ttype == TokenKind.identifier

def Token.is_eol_or_eof (t : Token) : Bool :=
  t.ttype == TokenKind.eol || t.ttype == TokenKind.eofKind

def tokGet : List Token → Token × List Token
  | [] => (⟨TokenKind.eofKind, ""⟩, [])
  | t :: ts => (t, ts)

def tokUnget (t : Token) (ts : List Token) : List Token := t :: ts

/-- Modelled from the spec: `get_int` of the external tokenizer collaborator
(`dns.tokenizer` is not under src/): it reads one token, which must be an
identifier whose value is an unsigned decimal integer, and raises a syntax
error otherwise ("the next token must be an integer length", failing with a
syntax error on an "unparsable integer"). -/
def tokGetInt (tok : List Token) : Except DnsError (Nat × List Token) :=
  let (token, rest) := tokGet tok
  if token.is_identifier = false then .error (.synError "expecting an identifier")
  else
    match token.value.toNat? with
    | some n => .ok (n, rest)
    | none => .error (.synError "is not an integer")

/-! ## Hex decoding (`binascii.unhexlify`) -/

def hexDigitVal (c : Char) : Option Nat :=
  if ('0' ≤ c ∧ c ≤ '9') then some (c.toNat - '0'.toNat)
  else if ('a' ≤ c ∧ c ≤ 'f') then some (c.toNat - 'a'.toNat + 10)
  else if ('A' ≤ c ∧ c ≤ 'F') then some (c.toNat - 'A'.toNat + 10)
  else none

/-- `binascii.unhexlify`: fails on odd-length input or any non-hex digit. -/
def unhexlify : List Char → Option (List Nat)
  | [] => some []
  | [_] => none
  | c1 :: c2 :: rest =>
    match hexDigitVal c1, hexDigitVal c2, unhexlify rest with
    | some h, some l, some bs => some ((h * 16 + l) :: bs)
    | _, _, _ => none

/-! ## The Generic fallback variant (`GenericRdata`) -/

structure GenericRdata where
  rdclass : Nat
  rdtype : Nat
  data : List Nat
deriving DecidableEq

/-- The `while 1:` chunk-collection loop of `GenericRdata.from_text`:
gather token values until an end-of-line or end-of-file token. -/
def collectChunks : List Token → List String × List Token
  | [] => ([], [])
  | t :: ts =>
    if t.is_eol_or_eof then ([], ts)
    else
      let (cs, rest) := collectChunks ts
      (t.value :: cs, rest)

/-- `GenericRdata.from_text`: the first token must be the identifier `\#`;
then an integer length; then hex chunks up to end of line, concatenated and
hex-decoded; the decoded byte count must equal the declared length. -/
def GenericRdata.from_text (rdclass rdtype : Nat) (tok : List Token) :
    Except DnsError (GenericRdata × List Token) :=
  let (token, tok1) := tokGet tok
  if ¬(token.is_identifier = true ∧ token.value = "\\#") then
    .error (.synError "generic rdata does not start with \\#")
  else
    match tokGetInt tok1 with
    | .error e => .error e
    | .ok (len0, tok2) =>
      let (chunks, tok3) := collectChunks tok2
      let hex := String.join chunks
      match unhexlify hex.data with
      | none => .error .binasciiError
      | some data =>
        if data.length ≠ len0 then
          .error (.synError "generic rdata hex data has wrong length")
        else .ok (⟨rdclass, rdtype, data⟩, tok3)

/-- `GenericRdata.from_wire`: slice `rdlen` bytes at offset `current`. -/
def GenericRdata.from_wire (rdclass rdtype : Nat) (wire : List Nat)
    (current rdlen : Nat) : GenericRdata :=
  ⟨rdclass, rdtype, (wire.drop current).take rdlen⟩

/-- The constructor parameters of `GenericRdata.__init__` (other than
`self`), as `inspect.signature` reports them to `Rdata.replace`. -/
def genericParameters : List String := ["rdclass", "rdtype", "data"]

/-- The key-validation loop of `Rdata.replace`, instantiated at the
`GenericRdata` variant: a key that is not a constructor parameter raises
`AttributeError`, and so do the identity fields `rdclass` / `rdtype`. -/
def replaceCheckKeys : List (String × List Nat) → Except DnsError Unit
  | [] => .ok ()
  | (k, _) :: rest =>
    if ¬ genericParameters.contains k then
      .error (.attrError ("object has no attribute " ++ k))
    else if k = "rdclass" ∨ k = "rdtype" then
      .error (.attrError ("cannot overwrite attribute " ++ k))
    else replaceCheckKeys rest

def kwLookup (kwargs : List (String × List Nat)) (k : String)
    (dflt : List Nat) : List Nat :=
  match kwargs.lookup k with
  | some v => v
  | none => dflt

/-- `Rdata.replace` instantiated at the `GenericRdata` variant: validate
every keyword, then rebuild the instance taking each constructor parameter
from the keywords when present and from the current value otherwise (the
identity fields cannot appear in the keywords after validation, so they
are always taken from the current value). -/
def GenericRdata.replace (g : GenericRdata)
    (kwargs : List (String × List Nat)) : Except DnsError GenericRdata :=
  match replaceCheckKeys kwargs with
  | .error e => .error e
  | .ok _ => .ok ⟨g.rdclass, g.rdtype, kwLookup kwargs "data" g.data⟩

/-- `__setattr__` as inherited by `GenericRdata` from `Rdata`. -/
def GenericRdata.setattrPy {α : Type} (_g : GenericRdata) (_name : String)
    (_value : α) : Except DnsError Unit :=
  .error (.typeError "object does not support attribute assignment")

/-- `__delattr__` as inherited by `GenericRdata` from `Rdata`. -/
def GenericRdata.delattrPy (_g : GenericRdata) (_name : String) :
    Except DnsError Unit :=
  .error (.typeError "object does not support attribute deletion")

/-! ## `_truncate_bitmap` -/

/-- The `for i in range(len(what) - 1, -1, -1)` loop of `_truncate_bitmap`:
the argument counts how many indices (from the high end, downwards) are
still to be examined. -/
def truncateGo (what : List Nat) : Nat → List Nat
  | 0 => what.take 1
  | i + 1 => if what.getD i 0 ≠ 0 then what.take (i + 1) else truncateGo what i

/-- `_truncate_bitmap`: scan from the end for the greatest index holding a
non-zero byte and keep everything up to and including it; if no byte is
non-zero, fall back to `what[0:1]`. -/
def truncate_bitmap (what : List Nat) : List Nat := truncateGo what what.length

/-! ## The type registry and dispatch

An implementation class is either the Generic fallback or a loaded
class-and-type-specific class, abstracted by a tag.  The module-level
`_rdata_classes` dictionary becomes an association list threaded through
the functions that read and update it (insertion at the head shadows any
older binding, like a dictionary store). -/

inductive Impl where
  | genericRdata
  | typed (tag : Nat)
deriving DecidableEq

abbrev Registry := List ((Nat × Nat) × Impl)

def regGet : Registry → Nat → Nat → Option Impl
  | [], _, _ => none
  | ((c, t), v) :: rest, c', t' => if c = c' ∧ t = t' then some v else regGet rest c' t'

def regSet (reg : Registry) (c t : Nat) (v : Impl) : Registry := ((c, t), v) :: reg

def rdataclass_IN : Nat := 1
def rdataclass_ANY : Nat := 255
def rdatatype_ANY : Nat := 255
def modulePrefixStr : String := "dns.rdtypes"

/-- A loaded Python module, as consumed by `get_rdata_class` and
`register_type`: `attr` is `getattr` (assumed to succeed, as it does for
every module following the naming convention). -/
structure ModuleObj where
  attr : String → Impl

/-- The result of a dispatch entry point: a Generic instance or a
fully-typed instance of some loaded implementation (abstracted). -/
inductive RdataVal where
  | generic (g : GenericRdata)
  | typed (tag : Nat) (payload : List Nat)
deriving DecidableEq

/-- The external collaborators of the module, as explicit parameters:
`rdataclass_to_text` / `rdatatype_to_text` are the numeric-to-text
registries, `import_module` is Python's importer restricted to the
`dns.rdtypes` hierarchy (`none` models `ImportError`), and
`typed_from_text` / `typed_from_wire` are the `from_text` / `from_wire`
classmethods of the loaded non-generic implementation classes. -/
structure Env where
  rdataclass_to_text : Nat → String
  rdatatype_to_text : Nat → String
  import_module : String → Option ModuleObj
  typed_from_text : Nat → Nat → Nat → List Token → Except DnsError (RdataVal × List Token)
  typed_from_wire : Nat → Nat → Nat → List Nat → Nat → Nat → Except DnsError RdataVal

/-- The type's textual name with `-` normalized to `_`, used both as the
module-name tail and as the attribute to fetch from the loaded module. -/
def rdtypeModText (env : Env) (rdtype : Nat) : String :=
  (env.rdatatype_to_text rdtype).replace "-" "_"

/-- The dotted name of the class-and-type-specific module,
`'.'.join([_module_prefix, rdclass_text, rdtype_text])`. -/
def specificModName (env : Env) (rdclass rdtype : Nat) : String :=
  String.intercalate "."
    [modulePrefixStr, env.rdataclass_to_text rdclass, rdtypeModText env rdtype]

/-- The dotted name of the class-agnostic module,
`'.'.join([_module_prefix, 'ANY', rdtype_text])`. -/
def anyModName (env : Env) (rdtype : Nat) : String :=
  String.intercalate "." [modulePrefixStr, "ANY", rdtypeModText env rdtype]

/-- `get_rdata_class`: resolve a (class, type) key to an implementation,
lazily populating the registry: exact cache hit; else (ANY, type) cache
hit; else import the class-specific module and cache under (class, type);
else import the ANY module and cache under both (ANY, type) and
(class, type); else fall back to `GenericRdata` and cache that binding. -/
def get_rdata_class (env : Env) (rdclass rdtype : Nat) (reg : Registry) :
    Impl × Registry :=
  match regGet reg rdclass rdtype with
  | some cls => (cls, reg)
  | none =>
    match regGet reg rdatatype_ANY rdtype with
    | some cls => (cls, reg)
    | none =>
      match env.import_module (specificModName env rdclass rdtype) with
      | some mod =>
        let cls := mod.attr (rdtypeModText env rdtype)
        (cls, regSet reg rdclass rdtype cls)
      | none =>
        match env.import_module (anyModName env rdtype) with
        | some mod =>
          let cls := mod.attr (rdtypeModText env rdtype)
          (cls, regSet (regSet reg rdataclass_ANY rdtype cls) rdclass rdtype cls)
        | none =>
          (Impl.genericRdata, regSet reg rdclass rdtype Impl.genericRdata)

/-- `cls.from_text(...)` dispatch on a resolved implementation class. -/
def Impl.fromTextDispatch (env : Env) :
    Impl → Nat → Nat → List Token → Except DnsError (RdataVal × List Token)
  | .genericRdata, c, t, tok =>
    match GenericRdata.from_text c t tok with
    | .error e => .error e
    | .ok (g, rest) => .ok (.generic g, rest)
  | .typed tag, c, t, tok => env.typed_from_text tag c t tok

/-- `cls.from_wire(...)` dispatch on a resolved implementation class. -/
def Impl.fromWireDispatch (env : Env) :
    Impl → Nat → Nat → List Nat → Nat → Nat → Except DnsError RdataVal
  | .genericRdata, c, t, w, cur, len => .ok (.generic (GenericRdata.from_wire c t w cur len))
  | .typed tag, c, t, w, cur, len => env.typed_from_wire tag c t w cur len

/-- Module-level `from_wire`: resolve the implementation and delegate to
its `from_wire` classmethod (`dns.wiredata.maybe_wrap` is modelled as the
identity on the byte list). -/
def from_wire (env : Env) (rdclass rdtype : Nat) (wire : List Nat)
    (current rdlen : Nat) (reg : Registry) :
    Except DnsError RdataVal × Registry :=
  let (cls, reg1) := get_rdata_class env rdclass rdtype reg
  (cls.fromWireDispatch env rdclass rdtype wire current rdlen, reg1)

/-- Module-level `from_text`: resolve the implementation; when it is not
the Generic fallback, peek at the first token (get then unget); if that
token is the identifier `\#`, parse the input as a Generic value and
re-dispatch through `from_wire` on its bytes; in every other case delegate
to the resolved implementation's `from_text`. -/
def from_text (env : Env) (rdclass rdtype : Nat) (tok : List Token)
    (reg : Registry) :
    Except DnsError (RdataVal × List Token) × Registry :=
  let (cls, reg1) := get_rdata_class env rdclass rdtype reg
  if cls ≠ Impl.genericRdata then
    let (token, rest) := tokGet tok
    let tok1 := tokUnget token rest
    if token.is_identifier = true ∧ token.value = "\\#" then
      match GenericRdata.from_text rdclass rdtype tok1 with
      | .error e => (.error e, reg1)
      | .ok (rdata, tok2) =>
        let (res, reg2) :=
          from_wire env rdclass rdtype rdata.data 0 rdata.data.length reg1
        (match res with
         | .error e => .error e
         | .ok v => .ok (v, tok2), reg2)
    else (cls.fromTextDispatch env rdclass rdtype tok1, reg1)
  else (cls.fromTextDispatch env rdclass rdtype tok, reg1)

/-! ## `register_type` -/

/-- The type-name registry kept by `dns.rdatatype`. -/
abbrev TypeReg := List (Nat × (String × Bool))

/-- Modelled from the spec: `dns.rdatatype.register_type` (the
numeric-to-text registry is an external collaborator, not under src/):
it records the display name of the type and whether it is a singleton. -/
def rdatatype_register_type (tyreg : TypeReg) (rdtype : Nat)
    (rdtype_text : String) (is_singleton : Bool) : TypeReg :=
  (rdtype, (rdtype_text, is_singleton)) :: tyreg

/-- `register_type`: resolve the key via `get_rdata_class`; if the result
is a non-generic implementation, raise `RdatatypeExists`; otherwise bind
the key to `getattr(implementation, rdtype_text.replace('-', '_'))` and
inform the type-name registry. -/
def register_type (env : Env) (implementation : ModuleObj) (rdtype : Nat)
    (rdtype_text : String) (is_singleton : Bool) (rdclass : Nat)
    (reg : Registry) (tyreg : TypeReg) :
    Except DnsError (Registry × TypeReg) :=
  let (existing_cls, reg1) := get_rdata_class env rdclass rdtype reg
  if existing_cls ≠ Impl.genericRdata then
    .error (.rdatatypeExists rdclass rdtype)
  else
    .ok (regSet reg1 rdclass rdtype
           (implementation.attr (rdtype_text.replace "-" "_")),
         rdatatype_register_type tyreg rdtype rdtype_text is_singleton)

/-! ## Shared helper lemmas -/

theorem regGet_regSet (reg : Registry) (c t : Nat) (v : Impl) :
    regGet (regSet reg c t v) c t = some v := by
  simp [regGet, regSet]

theorem get_rdata_class_cached (env : Env) (c t : Nat) (reg : Registry)
    (v : Impl) (h : regGet reg c t = some v) :
    get_rdata_class env c t reg = (v, reg) := by
  unfold get_rdata_class
  rw [h]

/-- A lookup immediately repeated returns the same implementation and
leaves the registry unchanged: resolution is memoized. -/
theorem get_rdata_class_idem (env : Env) (c t : Nat) (reg : Registry) :
    get_rdata_class env c t ((get_rdata_class env c t reg).2) =
      ((get_rdata_class env c t reg).1, (get_rdata_class env c t reg).2) := by
  cases h1 : regGet reg c t with
  | some v =>
    rw [get_rdata_class_cached env c t reg v h1]
    exact get_rdata_class_cached env c t reg v h1
  | none =>
    cases h2 : regGet reg rdatatype_ANY t with
    | some v =>
      have hfst : get_rdata_class env c t reg = (v, reg) := by
        unfold get_rdata_class
        rw [h1, h2]
      rw [hfst]
      unfold get_rdata_class
      rw [h1, h2]
    | none =>
      cases h3 : env.import_module (specificModName env c t) with
      | some mod =>
        have hfst : get_rdata_class env c t reg =
            (mod.attr (rdtypeModText env t), regSet reg c t (mod.attr (rdtypeModText env t))) := by
          unfold get_rdata_class
          rw [h1, h2, h3]
        rw [hfst]
        exact get_rdata_class_cached env c t _ _ (regGet_regSet reg c t _)
      | none =>
        cases h4 : env.import_module (anyModName env t) with
        | some mod =>
          have hfst : get_rdata_class env c t reg =
              (mod.attr (rdtypeModText env t),
               regSet (regSet reg rdataclass_ANY t (mod.attr (rdtypeModText env t))) c t
                 (mod.attr (rdtypeModText env t))) := by
            unfold get_rdata_class
            rw [h1, h2, h3, h4]
          rw [hfst]
          exact get_rdata_class_cached env c t _ _ (regGet_regSet _ c t _)
        | none =>
          have hfst : get_rdata_class env c t reg =
              (Impl.genericRdata, regSet reg c t Impl.genericRdata) := by
            unfold get_rdata_class
            rw [h1, h2, h3, h4]
          rw [hfst]
          exact get_rdata_class_cached env c t _ _ (regGet_regSet reg c t _)

/-- Modelled from the spec: the error taxonomy of section 7 classifies, in a
language-agnostic way, every "malformed or unexpected token while parsing
text (wrong leading token, unparsable integer, malformed hex, wrong
declared length)" failure as the syntax-error kind.  In the code the wrong
leading token, unparsable integer and wrong declared length raise
`dns.exception.SyntaxError`, while malformed hex surfaces the error raised
by `binascii`; the taxonomy groups all of them under this kind. -/
def DnsError.isSyntaxKind : DnsError → Bool
  | .synError _ => true
  | .binasciiError => true
  | _ => false

theorem tokGetInt_error_syn (tok : List Token) (e : DnsError)
    (h : tokGetInt tok = .error e) : ∃ msg, e = .synError msg := by
  unfold tokGetInt at h
  split at h
  split at h
  · exact ⟨_, (Except.error.inj h).symm⟩
  · split at h
    · cases h
    · exact ⟨_, (Except.error.inj h).symm⟩

/-- Invariant of the scanning loop of `_truncate_bitmap`: if every index
at or above the loop counter holds a zero byte, the loop returns a prefix
of positive length whose bytes beyond it are all zero, and whose last byte
is non-zero unless the prefix is the degenerate `what[0:1]`. -/
theorem truncateGo_spec (what : List Nat) :
    ∀ n, n ≤ what.length →
    (∀ j, n ≤ j → j < what.length → what.getD j 0 = 0) →
    ∃ k, truncateGo what n = what.take k ∧ 1 ≤ k ∧ k ≤ n + 1 ∧
      (∀ j, k ≤ j → j < what.length → what.getD j 0 = 0) ∧
      (what.getD (k - 1) 0 ≠ 0 ∨ (k = 1 ∧ (0 < what.length → what.getD 0 0 = 0))) := by
  intro n
  induction n with
  | zero =>
    intro _ hz
    refine ⟨1, rfl, le_refl 1, by omega, ?_, Or.inr ⟨rfl, ?_⟩⟩
    · intro j hj hjl
      exact hz j (Nat.zero_le j) hjl
    · intro h0
      exact hz 0 (Nat.le_refl 0) h0
  | succ i ih =>
    intro hn hz
    by_cases hnz : what.getD i 0 ≠ 0
    · refine ⟨i + 1, ?_, by omega, by omega, ?_, Or.inl ?_⟩
      · simp only [truncateGo]
        rw [if_pos hnz]
      · intro j hj hjl
        exact hz j hj hjl
      · simpa using hnz
    · push_neg at hnz
      have hred : truncateGo what (i + 1) = truncateGo what i := by
        simp only [truncateGo]
        rw [if_neg (by simpa using hnz)]
      rw [hred]
      have hz' : ∀ j, i ≤ j → j < what.length → what.getD j 0 = 0 := by
        intro j hj hjl
        rcases Nat.eq_or_lt_of_le hj with he | hlt
        · rw [← he]
          exact hnz
        · exact hz j hlt hjl
      obtain ⟨k, hk1, hk2, hk3, hk4, hk5⟩ := ih (by omega) hz'
      exact ⟨k, hk1, hk2, by omega, hk4, hk5⟩

/-- Claim C6 counterexample: on the empty byte string `_truncate_bitmap`
returns the empty byte string (`what[0:1]` of an empty input is empty), so
the result does not always have length at least 1 as the claim states. -/
theorem c6_counterexample :
    truncate_bitmap ([] : List Nat) = [] ∧
    (truncate_bitmap ([] : List Nat)).length = 0 := by
  exact ⟨rfl, rfl⟩

/-- Claim C6 (amended): for every non-empty byte string, the result of
`_truncate_bitmap` is a prefix of length at least 1 and at most the input
length such that every byte after the prefix is zero, and either the last
byte of the prefix is non-zero or the input is entirely zero and the
prefix is just the first byte; on the empty input the result is empty
(not of length 1); in particular `[1, 2, 0, 0]` maps to `[1, 2]` and
`[0, 0]` maps to `[0]`. -/
theorem c6_truncate_amended (what : List Nat) (h : what ≠ []) :
    (∃ k, truncate_bitmap what = what.take k ∧ 1 ≤ k ∧ k ≤ what.length ∧
      (∀ j, k ≤ j → j < what.length → what.getD j 0 = 0) ∧
      (what.getD (k - 1) 0 ≠ 0 ∨
        (k = 1 ∧ ∀ j, j < what.length → what.getD j 0 = 0))) ∧
    truncate_bitmap ([] : List Nat) = [] ∧
    truncate_bitmap [1, 2, 0, 0] = [1, 2] ∧
    truncate_bitmap [0, 0] = [0] := by
  refine ⟨?_, rfl, by decide, by decide⟩
  have hlen : 0 < what.length := List.length_pos.mpr h
  obtain ⟨k, hk1, hk2, hk3, hk4, hk5⟩ :=
    truncateGo_spec what what.length (le_refl _) (by intro j hj hjl; omega)
  refine ⟨k, hk1, hk2, ?_, hk4, ?_⟩
  · rcases hk5 with h5 | ⟨h51, _⟩
    · by_contra hgt
      push_neg at hgt
      have : what.getD (k - 1) 0 = 0 := by
        rw [List.getD_eq_default]
        omega
      exact h5 this
    · omega
  · rcases hk5 with h5 | ⟨h51, h52⟩
    · exact Or.inl h5
    · refine Or.inr ⟨h51, ?_⟩
      intro j hjl
      rcases Nat.eq_zero_or_pos j with hj0 | hjp
      · rw [hj0]
        exact h52 hlen
      · exact hk4 j (by omega) hjl

/-- Claim C6 amended witness. -/
theorem c6_truncate_amended_witness :
    truncate_bitmap [1, 2, 0, 0] = [1, 2] ∧ truncate_bitmap [0, 0] = [0] := by
  have h := c6_truncate_amended [1, 2, 0, 0] (by decide)
  exact ⟨h.2.2.1, h.2.2.2⟩

/-- Claim C9: every attempt to assign to or delete any attribute on a
constructed Rdata value — including on the Generic variant, which inherits
the interceptors — raises `TypeError`, for every attribute name and every
value, so no operation can mutate a constructed value in place. -/
theorem c9_immutability {α : Type} (r : Rdata) (g : GenericRdata)
    (name : String) (value : α) :
    r.setattrPy name value =
      .error (.typeError "object does not support attribute assignment") ∧
    r.delattrPy name =
      .error (.typeError "object does not support attribute deletion") ∧
    g.setattrPy name value =
      .error (.typeError "object does not support attribute assignment") ∧
    g.delattrPy name =
      .error (.typeError "object does not support attribute deletion") :=
  ⟨rfl, rfl, rfl, rfl⟩

/-- Claim C10: equality of an Rdata value against any non-Rdata object is
total: `__eq__` returns `False` and `__ne__` returns `True`, for every
such object, without consulting the wire serialization. -/
theorem c10_eq_non_rdata (v : Rdata) (tag : Nat) :
    v.eqPy (PyObj.nonRdata tag) = false ∧ v.nePy (PyObj.nonRdata tag) = true :=
  ⟨rfl, rfl⟩

/-- Claim C7: the hash of a value is the hash of its canonical digestable
byte sequence (`to_digestable` relative to the DNS root), and two values
that compare equal hash identically, for every hash function on bytes. -/
theorem c7_hash_consistency (H : List Nat → Int) (a b : Rdata)
    (h : a.eqPy (PyObj.rdataObj b) = true) :
    a.hashVal H = b.hashVal H ∧ a.hashVal H = H a.to_digestable := by
  refine ⟨?_, rfl⟩
  simp only [Rdata.eqPy] at h
  split at h
  · cases h
  · have hcmp : a.cmp b = 0 := of_decide_eq_true h
    have hdig : a.to_digestable = b.to_digestable :=
      (Rdata.cmp_eq_zero_iff a b).mp hcmp
    simp only [Rdata.hashVal, hdig]

/-- Claim C7 witness. -/
theorem c7_hash_consistency_witness :
    Rdata.hashVal (fun l => (l.length : Int)) ⟨1, 1, [7, 8]⟩ =
      Rdata.hashVal (fun l => (l.length : Int)) ⟨1, 1, [7, 8]⟩ :=
  (c7_hash_consistency (fun l => (l.length : Int)) ⟨1, 1, [7, 8]⟩ ⟨1, 1, [7, 8]⟩
    (by decide)).1

/-! ## Characterizations of the comparison operators -/

theorem Rdata.ltPy_same (a b : Rdata) (h1 : a.rdclass = b.rdclass)
    (h2 : a.rdtype = b.rdtype) :
    a.ltPy (PyObj.rdataObj b) =
      some (pyBytesLt a.to_digestable b.to_digestable) := by
  have hc : ¬(a.rdclass ≠ b.rdclass ∨ a.rdtype ≠ b.rdtype) := by
    push_neg
    exact ⟨h1, h2⟩
  simp only [Rdata.ltPy, if_neg hc]
  congr 1
  cases hpb : pyBytesLt a.to_digestable b.to_digestable
  · simp only [decide_eq_false_iff_not]
    intro hlt
    have h3 := (Rdata.cmp_neg_iff a b).mp hlt
    rw [hpb] at h3
    exact Bool.false_ne_true h3
  · simp only [decide_eq_true_eq]
    exact (Rdata.cmp_neg_iff a b).mpr hpb

theorem Rdata.eqPy_same (a b : Rdata) (h1 : a.rdclass = b.rdclass)
    (h2 : a.rdtype = b.rdtype) :
    a.eqPy (PyObj.rdataObj b) = decide (a.to_digestable = b.to_digestable) := by
  have hc : ¬(a.rdclass ≠ b.rdclass ∨ a.rdtype ≠ b.rdtype) := by
    push_neg
    exact ⟨h1, h2⟩
  simp only [Rdata.eqPy, if_neg hc]
  simp only [decide_eq_decide]
  exact Rdata.cmp_eq_zero_iff a b

theorem Rdata.gtPy_same (a b : Rdata) (h1 : a.rdclass = b.rdclass)
    (h2 : a.rdtype = b.rdtype) :
    a.gtPy (PyObj.rdataObj b) =
      some (pyBytesLt b.to_digestable a.to_digestable) := by
  have hc : ¬(a.rdclass ≠ b.rdclass ∨ a.rdtype ≠ b.rdtype) := by
    push_neg
    exact ⟨h1, h2⟩
  simp only [Rdata.gtPy, if_neg hc]
  congr 1
  cases hpb : pyBytesLt b.to_digestable a.to_digestable
  · simp only [decide_eq_false_iff_not]
    intro hgt
    have h3 := (Rdata.cmp_pos_iff a b).mp hgt
    rw [hpb] at h3
    exact Bool.false_ne_true h3
  · simp only [decide_eq_true_eq]
    exact (Rdata.cmp_pos_iff a b).mpr hpb

theorem Rdata.ops_diff (a b : Rdata)
    (h : a.rdclass ≠ b.rdclass ∨ a.rdtype ≠ b.rdtype) :
    a.eqPy (PyObj.rdataObj b) = false ∧ a.ltPy (PyObj.rdataObj b) = none ∧
    a.lePy (PyObj.rdataObj b) = none ∧ a.gePy (PyObj.rdataObj b) = none ∧
    a.gtPy (PyObj.rdataObj b) = none := by
  refine ⟨?_, ?_, ?_, ?_, ?_⟩ <;>
    simp only [Rdata.eqPy, Rdata.ltPy, Rdata.lePy, Rdata.gePy, Rdata.gtPy,
      if_pos h]

/-- Claim C1: for any two Rdata values `a`, `b` of equal class and type,
exactly one of `a < b`, `a == b`, `a > b` holds, and the ordering is the
strict total order induced by lexicographic comparison of the byte
sequences produced by the canonical wire serialization (`to_digestable`
relative to the DNS root): `<` is exactly lexicographic less-than of the
canonical bytes, `==` exactly their equality, `>` exactly lexicographic
greater-than, and the order is asymmetric and transitive.  For values of
differing class or type, `==` is `False` and every ordering operator
returns `NotImplemented`, implying no relationship. -/
theorem c1_canonical_order (a b c : Rdata) :
    (a.rdclass = b.rdclass ∧ a.rdtype = b.rdtype →
      ((a.ltPy (PyObj.rdataObj b) = some true ∧
          a.eqPy (PyObj.rdataObj b) = false ∧
          a.gtPy (PyObj.rdataObj b) = some false) ∨
       (a.ltPy (PyObj.rdataObj b) = some false ∧
          a.eqPy (PyObj.rdataObj b) = true ∧
          a.gtPy (PyObj.rdataObj b) = some false) ∨
       (a.ltPy (PyObj.rdataObj b) = some false ∧
          a.eqPy (PyObj.rdataObj b) = false ∧
          a.gtPy (PyObj.rdataObj b) = some true)) ∧
      a.ltPy (PyObj.rdataObj b) =
        some (pyBytesLt a.to_digestable b.to_digestable) ∧
      a.eqPy (PyObj.rdataObj b) = decide (a.to_digestable = b.to_digestable) ∧
      a.gtPy (PyObj.rdataObj b) =
        some (pyBytesLt b.to_digestable a.to_digestable) ∧
      (a.ltPy (PyObj.rdataObj b) = some true →
        b.ltPy (PyObj.rdataObj a) = some false) ∧
      (b.rdclass = c.rdclass ∧ b.rdtype = c.rdtype →
        a.ltPy (PyObj.rdataObj b) = some true →
        b.ltPy (PyObj.rdataObj c) = some true →
        a.ltPy (PyObj.rdataObj c) = some true)) ∧
    (¬(a.rdclass = b.rdclass ∧ a.rdtype = b.rdtype) →
      a.eqPy (PyObj.rdataObj b) = false ∧ a.ltPy (PyObj.rdataObj b) = none ∧
      a.lePy (PyObj.rdataObj b) = none ∧ a.gePy (PyObj.rdataObj b) = none ∧
      a.gtPy (PyObj.rdataObj b) = none) := by
  constructor
  · rintro ⟨h1, h2⟩
    have hlt := Rdata.ltPy_same a b h1 h2
    have heq := Rdata.eqPy_same a b h1 h2
    have hgt := Rdata.gtPy_same a b h1 h2
    refine ⟨?_, hlt, heq, hgt, ?_, ?_⟩
    · rcases lt_trichotomy (a.cmp b) 0 with hcmp | hcmp | hcmp
      · left
        have hpb := (Rdata.cmp_neg_iff a b).mp hcmp
        refine ⟨?_, ?_, ?_⟩
        · rw [hlt, hpb]
        · rw [heq]
          simp only [decide_eq_false_iff_not]
          exact pyBytesLt_ne hpb
        · rw [hgt, pyBytesLt_asymm _ _ hpb]
      · right; left
        have hd := (Rdata.cmp_eq_zero_iff a b).mp hcmp
        refine ⟨?_, ?_, ?_⟩
        · rw [hlt, hd, pyBytesLt_irrefl]
        · rw [heq]
          simp [hd]
        · rw [hgt, hd, pyBytesLt_irrefl]
      · right; right
        have hpb := (Rdata.cmp_pos_iff a b).mp hcmp
        refine ⟨?_, ?_, ?_⟩
        · rw [hlt, pyBytesLt_asymm _ _ hpb]
        · rw [heq]
          simp only [decide_eq_false_iff_not]
          intro he
          rw [he, pyBytesLt_irrefl] at hpb
          exact Bool.false_ne_true hpb
        · rw [hgt, hpb]
    · intro hab
      rw [hlt] at hab
      have hab' : pyBytesLt a.to_digestable b.to_digestable = true :=
        Option.some.inj hab
      rw [Rdata.ltPy_same b a h1.symm h2.symm, pyBytesLt_asymm _ _ hab']
    · rintro ⟨h3, h4⟩ hab hbc
      rw [hlt] at hab
      rw [Rdata.ltPy_same b c h3 h4] at hbc
      have hac := pyBytesLt_trans _ _ _ (Option.some.inj hab) (Option.some.inj hbc)
      rw [Rdata.ltPy_same a c (h1.trans h3) (h2.trans h4), hac]
  · intro h
    have h' : a.rdclass ≠ b.rdclass ∨ a.rdtype ≠ b.rdtype := by tauto
    exact Rdata.ops_diff a b h'

/-- Claim C1 witness. -/
theorem c1_canonical_order_witness :
    (Rdata.mk 1 1 [1]).ltPy (PyObj.rdataObj (Rdata.mk 1 1 [2])) = some true ∧
    (Rdata.mk 1 1 [1]).eqPy (PyObj.rdataObj (Rdata.mk 2 1 [1])) = false := by
  constructor
  · have h :=
      ((c1_canonical_order (Rdata.mk 1 1 [1]) (Rdata.mk 1 1 [2])
        (Rdata.mk 1 1 [2])).1 ⟨rfl, rfl⟩).2.1
    rw [h]
    decide
  · exact ((c1_canonical_order (Rdata.mk 1 1 [1]) (Rdata.mk 2 1 [1])
      (Rdata.mk 2 1 [1])).2 (by decide)).1

/-- Unfolding equation for `GenericRdata.from_text` given the first token. -/
theorem GenericRdata.from_text_eq (rdclass rdtype : Nat) (tok : List Token)
    (token : Token) (tok1 : List Token) (htg : tokGet tok = (token, tok1)) :
    GenericRdata.from_text rdclass rdtype tok =
      if ¬(token.is_identifier = true ∧ token.value = "\\#") then
        .error (.synError "generic rdata does not start with \\#")
      else
        match tokGetInt tok1 with
        | .error e => .error e
        | .ok (len0, tok2) =>
          let (chunks, tok3) := collectChunks tok2
          let hex := String.join chunks
          match unhexlify hex.data with
          | none => .error .binasciiError
          | some data =>
            if data.length ≠ len0 then
              .error (.synError "generic rdata hex data has wrong length")
            else .ok (⟨rdclass, rdtype, data⟩, tok3) := by
  unfold GenericRdata.from_text
  rw [htg]

/-- Claim C5: the Generic variant's `from_text` fails with a syntax-kind
error in each of these cases: the first token is not the identifier `\#`;
the length token is not an integer; the concatenated hex tokens are
malformed hex; the decoded byte length differs from the declared length —
and every failure it can produce is of the syntax-error kind, surfaced to
the caller and never silently recovered. -/
theorem c5_generic_from_text_errors (rdclass rdtype : Nat) (tok : List Token) :
    (∀ e, GenericRdata.from_text rdclass rdtype tok = .error e →
      e.isSyntaxKind = true) ∧
    (¬((tokGet tok).1.is_identifier = true ∧ (tokGet tok).1.value = "\\#") →
      GenericRdata.from_text rdclass rdtype tok =
        .error (.synError "generic rdata does not start with \\#")) ∧
    (∀ e, (tokGet tok).1.is_identifier = true → (tokGet tok).1.value = "\\#" →
      tokGetInt (tokGet tok).2 = .error e →
      GenericRdata.from_text rdclass rdtype tok = .error e) ∧
    (∀ n rest2, (tokGet tok).1.is_identifier = true →
      (tokGet tok).1.value = "\\#" →
      tokGetInt (tokGet tok).2 = .ok (n, rest2) →
      unhexlify (String.join (collectChunks rest2).1).data = none →
      GenericRdata.from_text rdclass rdtype tok = .error .binasciiError) ∧
    (∀ n rest2 data, (tokGet tok).1.is_identifier = true →
      (tokGet tok).1.value = "\\#" →
      tokGetInt (tokGet tok).2 = .ok (n, rest2) →
      unhexlify (String.join (collectChunks rest2).1).data = some data →
      data.length ≠ n →
      GenericRdata.from_text rdclass rdtype tok =
        .error (.synError "generic rdata hex data has wrong length")) := by
  rcases htg : tokGet tok with ⟨token, tok1⟩
  have heq := GenericRdata.from_text_eq rdclass rdtype tok token tok1 htg
  simp only [htg]
  refine ⟨?_, ?_, ?_, ?_, ?_⟩
  · intro e he
    rw [heq] at he
    by_cases hid : ¬(token.is_identifier = true ∧ token.value = "\\#")
    · rw [if_pos hid] at he
      cases he
      rfl
    · rw [if_neg hid] at he
      cases hti : tokGetInt tok1 with
      | error e1 =>
        rw [hti] at he
        dsimp only at he
        cases he
        obtain ⟨msg, hmsg⟩ := tokGetInt_error_syn tok1 e hti
        rw [hmsg]
        rfl
      | ok p =>
        rcases p with ⟨len0, tok2⟩
        rw [hti] at he
        dsimp only at he
        rcases hcc : collectChunks tok2 with ⟨chunks, tok3⟩
        rw [hcc] at he
        dsimp only at he
        cases hhx : unhexlify (String.join chunks).data with
        | none =>
          rw [hhx] at he
          dsimp only at he
          cases he
          rfl
        | some data =>
          rw [hhx] at he
          dsimp only at he
          by_cases hdl : data.length ≠ len0
          · rw [if_pos hdl] at he
            cases he
            rfl
          · rw [if_neg hdl] at he
            cases he
  · intro h
    rw [heq, if_pos h]
  · intro e h1 h2 hti
    rw [heq, if_neg (not_not_intro ⟨h1, h2⟩), hti]
  · intro n rest2 h1 h2 hti hhex
    rw [heq, if_neg (not_not_intro ⟨h1, h2⟩), hti]
    dsimp only
    rcases hcc : collectChunks rest2 with ⟨chunks, tok3⟩
    rw [hcc] at hhex
    dsimp only at hhex
    rw [hhex]
  · intro n rest2 data h1 h2 hti hhex hlen
    rw [heq, if_neg (not_not_intro ⟨h1, h2⟩), hti]
    dsimp only
    rcases hcc : collectChunks rest2 with ⟨chunks, tok3⟩
    rw [hcc] at hhex
    dsimp only at hhex
    rw [hhex]
    dsimp only
    rw [if_pos hlen]

/-- Claim C5 witness: a stream whose first token is not the `\#`
identifier is rejected with a syntax error. -/
theorem c5_generic_from_text_errors_witness :
    GenericRdata.from_text 1 9999 [Token.mk TokenKind.identifier "x"] =
      .error (.synError "generic rdata does not start with \\#") :=
  (c5_generic_from_text_errors 1 9999
    [Token.mk TokenKind.identifier "x"]).2.1 (by decide)

/-! ## The registry claims -/

/-- A trivial concrete environment: empty numeric-to-text registries, no
loadable modules, and stub typed dispatchers. -/
def env0 : Env where
  rdataclass_to_text := fun _ => ""
  rdatatype_to_text := fun _ => ""
  import_module := fun _ => none
  typed_from_text := fun tag _ _ tokarg => .ok (.typed tag [], tokarg)
  typed_from_wire := fun tag _ _ w _ _ => .ok (.typed tag w)

/-- Claim C2 counterexample: with the binding `(ANY, 7) ↦ typed 3` cached
and nothing else, `get_rdata_class` for `(IN, 7)` returns the ANY binding
but leaves the registry unchanged — the result is not also cached under
`(IN, 7)` as step (2) of the claim states. -/
theorem c2_counterexample :
    (get_rdata_class env0 rdataclass_IN 7
      (regSet [] rdatatype_ANY 7 (Impl.typed 3))).1 = Impl.typed 3 ∧
    regGet (get_rdata_class env0 rdataclass_IN 7
      (regSet [] rdatatype_ANY 7 (Impl.typed 3))).2 rdataclass_IN 7 = none := by
  exact ⟨rfl, rfl⟩

/-- Claim C2 (amended): `get_rdata_class` resolves in this order: (1) an
exact (class, type) cache hit is returned with the registry unchanged;
(2) an (ANY, type) cache hit is returned with the registry unchanged (it
is not additionally cached under (class, type)); (3) a specific-class
implementation loaded by naming convention is cached under (class, type)
and returned; (4) an ANY implementation loaded the same way is cached
under both (ANY, type) and (class, type) and returned; (5) otherwise the
key is bound to the Generic fallback and that binding is cached; and an
immediately repeated lookup returns the same implementation without
changing the registry, so repeated lookups of an unknown type never
re-attempt resolution. -/
theorem c2_resolution_order (env : Env) (rdclass rdtype : Nat)
    (reg : Registry) :
    (∀ v, regGet reg rdclass rdtype = some v →
      get_rdata_class env rdclass rdtype reg = (v, reg)) ∧
    (regGet reg rdclass rdtype = none →
      ∀ v, regGet reg rdatatype_ANY rdtype = some v →
        get_rdata_class env rdclass rdtype reg = (v, reg)) ∧
    (regGet reg rdclass rdtype = none →
      regGet reg rdatatype_ANY rdtype = none →
      ∀ mod, env.import_module (specificModName env rdclass rdtype) = some mod →
        get_rdata_class env rdclass rdtype reg =
          (mod.attr (rdtypeModText env rdtype),
           regSet reg rdclass rdtype (mod.attr (rdtypeModText env rdtype)))) ∧
    (regGet reg rdclass rdtype = none →
      regGet reg rdatatype_ANY rdtype = none →
      env.import_module (specificModName env rdclass rdtype) = none →
      ∀ mod, env.import_module (anyModName env rdtype) = some mod →
        get_rdata_class env rdclass rdtype reg =
          (mod.attr (rdtypeModText env rdtype),
           regSet (regSet reg rdataclass_ANY rdtype
               (mod.attr (rdtypeModText env rdtype)))
             rdclass rdtype (mod.attr (rdtypeModText env rdtype)))) ∧
    (regGet reg rdclass rdtype = none →
      regGet reg rdatatype_ANY rdtype = none →
      env.import_module (specificModName env rdclass rdtype) = none →
      env.import_module (anyModName env rdtype) = none →
      get_rdata_class env rdclass rdtype reg =
        (Impl.genericRdata, regSet reg rdclass rdtype Impl.genericRdata)) ∧
    get_rdata_class env rdclass rdtype
        ((get_rdata_class env rdclass rdtype reg).2) =
      ((get_rdata_class env rdclass rdtype reg).1,
       (get_rdata_class env rdclass rdtype reg).2) := by
  refine ⟨?_, ?_, ?_, ?_, ?_, get_rdata_class_idem env rdclass rdtype reg⟩
  · intro v h
    exact get_rdata_class_cached env rdclass rdtype reg v h
  · intro h1 v h2
    unfold get_rdata_class
    rw [h1, h2]
  · intro h1 h2 mod h3
    unfold get_rdata_class
    rw [h1, h2, h3]
  · intro h1 h2 h3 mod h4
    unfold get_rdata_class
    rw [h1, h2, h3, h4]
  · intro h1 h2 h3 h4
    unfold get_rdata_class
    rw [h1, h2, h3, h4]

/-- Claim C2 amended witness: a lookup of an unbindable key falls back to
the Generic implementation and caches that binding. -/
theorem c2_resolution_order_witness :
    get_rdata_class env0 rdataclass_IN 9 [] =
      (Impl.genericRdata, regSet [] rdataclass_IN 9 Impl.genericRdata) :=
  (c2_resolution_order env0 rdataclass_IN 9 []).2.2.2.2.1 rfl rfl rfl rfl

/-- Unfolding equation for module-level `from_text` given the resolved
implementation and the first token. -/
theorem from_text_unfold (env : Env) (rdclass rdtype : Nat) (tok : List Token)
    (reg : Registry) (cls : Impl) (reg1 : Registry)
    (hgc : get_rdata_class env rdclass rdtype reg = (cls, reg1))
    (token : Token) (rest : List Token) (htg : tokGet tok = (token, rest)) :
    from_text env rdclass rdtype tok reg =
      (if cls ≠ Impl.genericRdata then
        if token.is_identifier = true ∧ token.value = "\\#" then
          match GenericRdata.from_text rdclass rdtype (tokUnget token rest) with
          | .error e => (.error e, reg1)
          | .ok (rdata, tok2) =>
            let (res, reg2) :=
              from_wire env rdclass rdtype rdata.data 0 rdata.data.length reg1
            (match res with
             | .error e => .error e
             | .ok v => .ok (v, tok2), reg2)
        else (cls.fromTextDispatch env rdclass rdtype (tokUnget token rest), reg1)
      else (cls.fromTextDispatch env rdclass rdtype tok, reg1)) := by
  unfold from_text
  rw [hgc, htg]

/-- Claim C3: in module-level `from_text`, when the registry resolves the
key to a non-generic implementation, the first token is peeked — get then
unget, leaving the stream unchanged; if that token is the identifier `\#`,
the input is first decoded as a Generic value and the result is obtained by
re-dispatching through `from_wire` on that Generic value's bytes, which
resolves to the same non-generic implementation and hence yields a
fully-typed instance; in every other case — including when the resolved
implementation is the Generic fallback, where no peek occurs — the resolved
implementation's `from_text` is called directly. -/
theorem c3_from_text_dispatch (env : Env) (rdclass rdtype : Nat)
    (tok : List Token) (reg : Registry) :
    ((get_rdata_class env rdclass rdtype reg).1 ≠ Impl.genericRdata →
      (tokGet tok).1.is_identifier = true → (tokGet tok).1.value = "\\#" →
      (∀ e, GenericRdata.from_text rdclass rdtype
          (tokUnget (tokGet tok).1 (tokGet tok).2) = .error e →
        from_text env rdclass rdtype tok reg =
          (.error e, (get_rdata_class env rdclass rdtype reg).2)) ∧
      (∀ g tok2, GenericRdata.from_text rdclass rdtype
          (tokUnget (tokGet tok).1 (tokGet tok).2) = .ok (g, tok2) →
        from_wire env rdclass rdtype g.data 0 g.data.length
            (get_rdata_class env rdclass rdtype reg).2 =
          (((get_rdata_class env rdclass rdtype reg).1).fromWireDispatch
              env rdclass rdtype g.data 0 g.data.length,
           (get_rdata_class env rdclass rdtype reg).2) ∧
        from_text env rdclass rdtype tok reg =
          (match ((get_rdata_class env rdclass rdtype reg).1).fromWireDispatch
              env rdclass rdtype g.data 0 g.data.length with
           | .error e => .error e
           | .ok v => .ok (v, tok2),
           (get_rdata_class env rdclass rdtype reg).2))) ∧
    ((get_rdata_class env rdclass rdtype reg).1 ≠ Impl.genericRdata →
      ¬((tokGet tok).1.is_identifier = true ∧ (tokGet tok).1.value = "\\#") →
      from_text env rdclass rdtype tok reg =
        (((get_rdata_class env rdclass rdtype reg).1).fromTextDispatch env
            rdclass rdtype (tokUnget (tokGet tok).1 (tokGet tok).2),
         (get_rdata_class env rdclass rdtype reg).2)) ∧
    (tok ≠ [] → tokUnget (tokGet tok).1 (tokGet tok).2 = tok) ∧
    ((get_rdata_class env rdclass rdtype reg).1 = Impl.genericRdata →
      from_text env rdclass rdtype tok reg =
        (Impl.genericRdata.fromTextDispatch env rdclass rdtype tok,
         (get_rdata_class env rdclass rdtype reg).2)) := by
  rcases hgc : get_rdata_class env rdclass rdtype reg with ⟨cls, reg1⟩
  rcases htg : tokGet tok with ⟨token, rest⟩
  simp only [hgc, htg]
  have hfweq : ∀ w : List Nat, from_wire env rdclass rdtype w 0 w.length reg1 =
      (cls.fromWireDispatch env rdclass rdtype w 0 w.length, reg1) := by
    intro w
    have hidem := get_rdata_class_idem env rdclass rdtype reg
    rw [hgc] at hidem
    unfold from_wire
    rw [hidem]
  have heq := from_text_unfold env rdclass rdtype tok reg cls reg1 hgc token rest htg
  refine ⟨?_, ?_, ?_, ?_⟩
  · intro hne h1 h2
    constructor
    · intro e hge
      rw [heq, if_pos hne, if_pos ⟨h1, h2⟩, hge]
    · intro g tok2 hok
      refine ⟨hfweq g.data, ?_⟩
      rw [heq, if_pos hne, if_pos ⟨h1, h2⟩, hok]
      dsimp only
      rw [hfweq g.data]
  · intro hne hnot
    rw [heq, if_pos hne, if_neg hnot]
  · intro hne0
    cases tok with
    | nil => exact absurd rfl hne0
    | cons t ts =>
      have hpair : (t, ts) = (token, rest) := htg
      injection hpair with hA hB
      subst hA
      subst hB
      rfl
  · intro hgen
    rw [heq, if_neg (not_not_intro hgen), hgen]

/-- Claim C3 witness: with an unresolvable key the Generic fallback's
`from_text` is called directly (no peek), here on an empty stream. -/
theorem c3_from_text_dispatch_witness :
    from_text env0 1 7 [] [] =
      (.error (.synError "generic rdata does not start with \\#"),
       regSet [] 1 7 Impl.genericRdata) := by
  have h := (c3_from_text_dispatch env0 1 7 [] []).2.2.2 rfl
  rw [h]
  rfl

/-- Unfolding equation for `register_type` given the resolution result. -/
theorem register_type_eq (env : Env) (implementation : ModuleObj)
    (rdtype : Nat) (rdtype_text : String) (is_singleton : Bool)
    (rdclass : Nat) (reg : Registry) (tyreg : TypeReg) (ex : Impl)
    (reg1 : Registry)
    (hgc : get_rdata_class env rdclass rdtype reg = (ex, reg1)) :
    register_type env implementation rdtype rdtype_text is_singleton rdclass
        reg tyreg =
      if ex ≠ Impl.genericRdata then
        .error (.rdatatypeExists rdclass rdtype)
      else
        .ok (regSet reg1 rdclass rdtype
               (implementation.attr (rdtype_text.replace "-" "_")),
             rdatatype_register_type tyreg rdtype rdtype_text is_singleton) := by
  unfold register_type
  rw [hgc]

/-- Claim C4: `register_type` raises the type-already-registered error if
and only if the (class, type) key resolves, via the registry resolution
algorithm, to a non-generic implementation; when the key resolves to the
Generic fallback (in particular when it was unresolved, since resolution
then binds it to Generic), registration succeeds, binds the key to the
implementation's attribute for the type name, and informs the type-name
registry of the display name and singleton flag; consequently a second
registration for the same key raises exactly when the first call's binding
is non-generic. -/
theorem c4_register_type (env : Env) (implementation : ModuleObj)
    (rdtype : Nat) (rdtype_text : String) (is_singleton : Bool)
    (rdclass : Nat) (reg : Registry) (tyreg : TypeReg) :
    ((∃ e, register_type env implementation rdtype rdtype_text is_singleton
        rdclass reg tyreg = .error e) ↔
      (get_rdata_class env rdclass rdtype reg).1 ≠ Impl.genericRdata) ∧
    ((get_rdata_class env rdclass rdtype reg).1 ≠ Impl.genericRdata →
      register_type env implementation rdtype rdtype_text is_singleton
        rdclass reg tyreg = .error (.rdatatypeExists rdclass rdtype)) ∧
    ((get_rdata_class env rdclass rdtype reg).1 = Impl.genericRdata →
      register_type env implementation rdtype rdtype_text is_singleton
        rdclass reg tyreg =
        .ok (regSet (get_rdata_class env rdclass rdtype reg).2 rdclass rdtype
               (implementation.attr (rdtype_text.replace "-" "_")),
             (rdtype, (rdtype_text, is_singleton)) :: tyreg) ∧
      regGet (regSet (get_rdata_class env rdclass rdtype reg).2 rdclass rdtype
               (implementation.attr (rdtype_text.replace "-" "_")))
          rdclass rdtype =
        some (implementation.attr (rdtype_text.replace "-" "_"))) ∧
    ((get_rdata_class env rdclass rdtype reg).1 = Impl.genericRdata →
      ∀ impl2 text2 sing2 (tyreg2 : TypeReg),
        (implementation.attr (rdtype_text.replace "-" "_") ≠
            Impl.genericRdata →
          register_type env impl2 rdtype text2 sing2 rdclass
            (regSet (get_rdata_class env rdclass rdtype reg).2 rdclass rdtype
              (implementation.attr (rdtype_text.replace "-" "_"))) tyreg2 =
            .error (.rdatatypeExists rdclass rdtype)) ∧
        (implementation.attr (rdtype_text.replace "-" "_") =
            Impl.genericRdata →
          ∃ r, register_type env impl2 rdtype text2 sing2 rdclass
            (regSet (get_rdata_class env rdclass rdtype reg).2 rdclass rdtype
              (implementation.attr (rdtype_text.replace "-" "_"))) tyreg2 =
            .ok r)) := by
  rcases hgc : get_rdata_class env rdclass rdtype reg with ⟨ex, reg1⟩
  simp only [hgc]
  have heq := register_type_eq env implementation rdtype rdtype_text
    is_singleton rdclass reg tyreg ex reg1 hgc
  refine ⟨?_, ?_, ?_, ?_⟩
  · constructor
    · rintro ⟨e, he⟩
      intro hgen
      rw [heq, if_neg (not_not_intro hgen)] at he
      cases he
    · intro hne
      exact ⟨.rdatatypeExists rdclass rdtype, by rw [heq, if_pos hne]⟩
  · intro hne
    rw [heq, if_pos hne]
  · intro hgen
    refine ⟨?_, regGet_regSet reg1 rdclass rdtype _⟩
    rw [heq, if_neg (not_not_intro hgen)]
    rfl
  · intro hgen impl2 text2 sing2 tyreg2
    have hgc2 : get_rdata_class env rdclass rdtype
        (regSet reg1 rdclass rdtype
          (implementation.attr (rdtype_text.replace "-" "_"))) =
        (implementation.attr (rdtype_text.replace "-" "_"),
         regSet reg1 rdclass rdtype
           (implementation.attr (rdtype_text.replace "-" "_"))) :=
      get_rdata_class_cached env rdclass rdtype _ _
        (regGet_regSet reg1 rdclass rdtype _)
    have heq2 := register_type_eq env impl2 rdtype text2 sing2 rdclass _
      tyreg2 _ _ hgc2
    constructor
    · intro hv
      rw [heq2, if_pos hv]
    · intro hv
      exact ⟨(regSet (regSet reg1 rdclass rdtype
                (implementation.attr (rdtype_text.replace "-" "_")))
              rdclass rdtype (impl2.attr (text2.replace "-" "_")),
             rdatatype_register_type tyreg2 rdtype text2 sing2),
        by rw [heq2, if_neg (not_not_intro hv)]⟩

/-- A module object whose every attribute is the loaded class `typed 5`. -/
def implMod5 : ModuleObj := ⟨fun _ => Impl.typed 5⟩

/-- Claim C4 witness: registering class IN, type 9999 in a fresh registry
succeeds (the key resolves to the Generic fallback); a second registration
of the same key then raises, because the first call bound it to a
non-generic implementation. -/
theorem c4_register_type_witness :
    register_type env0 implMod5 9999 "TYPE9999" false rdataclass_IN [] [] =
      .ok (regSet (regSet [] rdataclass_IN 9999 Impl.genericRdata)
             rdataclass_IN 9999 (Impl.typed 5),
           [(9999, ("TYPE9999", false))]) ∧
    register_type env0 implMod5 9999 "TYPE9999" false rdataclass_IN
        (regSet (regSet [] rdataclass_IN 9999 Impl.genericRdata)
          rdataclass_IN 9999 (Impl.typed 5)) [] =
      .error (.rdatatypeExists rdataclass_IN 9999) := by
  have h := c4_register_type env0 implMod5 9999 "TYPE9999" false
    rdataclass_IN [] []
  have hgen : (get_rdata_class env0 rdataclass_IN 9999 []).1 =
      Impl.genericRdata := rfl
  constructor
  · exact (h.2.2.1 hgen).1
  · exact (h.2.2.2 hgen implMod5 "TYPE9999" false []).1 (by decide)

/-- Claim C8: `replace` on a constructed value of the Generic variant with
its one type-specific field `data` yields a new instance of the same
variant equal in every field except `data`, which takes the given value;
with no overrides it yields an instance equal to the original; it fails
with an invalid-field error whenever a keyword is not a constructor
parameter of the variant, and always fails when the caller attempts to
override the `rdclass` or `rdtype` identity fields. -/
theorem c8_replace (g : GenericRdata) (x : List Nat) (k : String)
    (v : List Nat) :
    g.replace [("data", x)] = .ok ⟨g.rdclass, g.rdtype, x⟩ ∧
    g.replace [] = .ok g ∧
    (¬(genericParameters.contains k = true) →
      g.replace [(k, v)] =
        .error (.attrError ("object has no attribute " ++ k))) ∧
    g.replace [("rdclass", v)] =
      .error (.attrError "cannot overwrite attribute rdclass") ∧
    g.replace [("rdtype", v)] =
      .error (.attrError "cannot overwrite attribute rdtype") := by
  refine ⟨rfl, rfl, ?_, rfl, rfl⟩
  intro h
  unfold GenericRdata.replace replaceCheckKeys
  rw [if_pos h]

/-- Claim C8 witness. -/
theorem c8_replace_witness :
    GenericRdata.replace ⟨1, 2, [3]⟩ [("data", [9])] = .ok ⟨1, 2, [9]⟩ ∧
    GenericRdata.replace ⟨1, 2, [3]⟩ [("bogus", [9])] =
      .error (.attrError ("object has no attribute " ++ "bogus")) := by
  have h := c8_replace ⟨1, 2, [3]⟩ [9] "bogus" [9]
  exact ⟨h.1, h.2.2.1 (by decide)⟩
